import Mathlib

/-!
Verification of the FASTAPI-CHAT relay core: the in-memory connection-room
registry (`ConnectionManager` in `main.py`), the broadcast fan-out, the
websocket endpoint's join/auth/message-loop behaviour, and the admin gate
(`AdminAuthBackend` in `auth.py`), shallowly embedded in Lean.
-/

namespace Chat

/-- Opaque websocket connection handles (Python object identity). -/
abbrev Sess := Nat

/-- Room identifiers (the `room_id` path parameter). -/
abbrev RoomId := String

/-- `ConnectionManager.active_connections`: a Python dict from room id to a list
of websockets, modelled as an association list in dict insertion order. -/
abbrev Registry := List (RoomId × List Sess)

/-- Python dict key lookup on `active_connections`. -/
def lookupRoom (st : Registry) (r : RoomId) : Option (List Sess) :=
  (st.find? (fun p => p.1 == r)).map (fun p => p.2)

/-- `ConnectionManager.connect` (main.py 108-112): create the room entry on
first join (`active_connections[room_id] = []`), then append the websocket. -/
def connect (st : Registry) (r : RoomId) (w : Sess) : Registry :=
  match lookupRoom st r with
  | none => st ++ [(r, [w])]
  | some _ => st.map (fun p => if p.1 == r then (p.1, p.2 ++ [w]) else p)

/-- Python exceptions that `ConnectionManager.disconnect` can raise. -/
inductive PyErr
  | keyError
  | valueError
deriving DecidableEq, Repr

/-- `ConnectionManager.disconnect` (main.py 114-117):
`active_connections[room_id].remove(websocket)` raises `KeyError` when the room
has no entry and `ValueError` when the websocket is not in the member list;
otherwise it removes the first occurrence, and `del active_connections[room_id]`
drops the entry when the list became empty. -/
def disconnect (st : Registry) (r : RoomId) (w : Sess) : Except PyErr Registry :=
  match lookupRoom st r with
  | none => Except.error PyErr.keyError
  | some ws =>
    if w ∈ ws then
      let ws' := ws.erase w
      if ws'.isEmpty then Except.ok (st.filter (fun p => !(p.1 == r)))
      else Except.ok (st.map (fun p => if p.1 == r then (p.1, ws') else p))
    else Except.error PyErr.valueError

/-- The member list `active_connections.get(room_id, [])` used by `broadcast`. -/
def membersOf (st : Registry) (r : RoomId) : List Sess :=
  (lookupRoom st r).getD []

/-- The delivery loop of `ConnectionManager.broadcast` (main.py 119-121):
`send_text` is attempted on each member in order; `broken s = true` means the
send on `s` raises.  Returns the members that received a delivery attempt and
whether an exception escaped the loop (Python has no try/except here, so the
first failing send aborts the loop and propagates). -/
def broadcastAttempts (members : List Sess) (broken : Sess → Bool) :
    List Sess × Bool :=
  match members with
  | [] => ([], false)
  | s :: rest =>
    if broken s then ([s], true)
    else
      let res := broadcastAttempts rest broken
      (s :: res.1, res.2)

/-- `ConnectionManager.broadcast`: iterate the room's member list. -/
def broadcast (st : Registry) (r : RoomId) (broken : Sess → Bool) :
    List Sess × Bool :=
  broadcastAttempts (membersOf st r) broken

/-- A registry operation issued by some connection handler: `join` is
`ConnectionManager.connect`, `leave` is `ConnectionManager.disconnect`. -/
inductive Op
  | join (r : RoomId) (w : Sess)
  | leave (r : RoomId) (w : Sess)
deriving DecidableEq, Repr

/-- Effect of one operation on the registry.  An exception raised by
`disconnect` propagates to the caller before any mutation happened, so the
registry is unchanged in that case. -/
def step (st : Registry) : Op → Registry
  | Op.join r w => connect st r w
  | Op.leave r w =>
    match disconnect st r w with
    | Except.ok st' => st'
    | Except.error _ => st

/-- Run a sequence of operations from the initial empty registry
(`self.active_connections = {}`). -/
def runOps (ops : List Op) : Registry := ops.foldl step []

/-- No room entry of the registry has an empty member list. -/
def noEmptyRooms (st : Registry) : Prop := ∀ p ∈ st, p.2 ≠ []

end Chat

namespace Chat

/-- One persisted message row of the room (`models.Message` joined with its
user): author username, content, and the timestamp assigned at persistence
time.  A room's log is kept in ascending timestamp order. -/
structure MsgRow where
  user : String
  content : String
  ts : Nat
deriving DecidableEq, Repr

/-- The payload of one `{"type": "message", ...}` frame (main.py 162-167). -/
structure Frame where
  user : String
  content : String
  ts : Nat
deriving DecidableEq, Repr

/-- An outbound websocket frame: the `{"type": "history"}` snapshot sent at
join, or a `{"type": "message"}` broadcast frame. -/
inductive Event
  | history (msgs : List MsgRow)
  | message (f : Frame)
deriving DecidableEq, Repr

/-- The history query of `websocket_endpoint` (main.py 139-149): order the
room's log by timestamp descending, `limit(20)`, then `reversed(...)`. -/
def historyFor (log : List MsgRow) : List MsgRow :=
  ((log.reverse).take 20).reverse

/-- The join portion of `websocket_endpoint` after successful authentication
(main.py 136-150): `manager.connect`, then one history frame sent to the
joining websocket only.  Returns the new registry and the outbound sends. -/
def joinSequence (st : Registry) (r : RoomId) (w : Sess) (log : List MsgRow) :
    Registry × List (Sess × Event) :=
  (connect st r w, [(w, Event.history (historyFor log))])

/-- A decoded JWT payload as `websocket_endpoint` and `AdminAuthBackend` use
it: the `sub` and `role` fields, each possibly absent. -/
structure Payload where
  sub : Option String
  role : Option String
deriving DecidableEq, Repr

/-- The authentication gate of `websocket_endpoint` (main.py 126-150):
`decode_access_token` failing, or a payload without `sub`, closes the socket
(code 1008) before `manager.connect`; otherwise the join sequence runs.
Returns the resulting registry, outbound sends, and whether the connection
was accepted into the receive loop. -/
def wsEndpointSetup (decode : String → Option Payload) (token : String)
    (st : Registry) (r : RoomId) (w : Sess) (log : List MsgRow) :
    Registry × List (Sess × Event) × Bool :=
  match decode token with
  | none => (st, [], false)
  | some payload =>
    match payload.sub with
    | none => (st, [], false)
    | some _ =>
      let res := joinSequence st r w log
      (res.1, res.2, true)

/-- Observable outcome of handling one inbound text frame in the receive loop. -/
structure StepResult where
  log : List MsgRow
  sends : List (Sess × Frame)
  registry : Registry
  sessionAlive : Bool
  deregistered : Bool
  notified : Bool
deriving DecidableEq, Repr

/-- The receive-loop body of `websocket_endpoint` (main.py 153-168) for one
inbound frame `data` from user `username` in room `r`.  `persistOk = false`
means `db.commit()` raises: the exception is not a `WebSocketDisconnect`, so
the `except` clause (main.py 170-172) does not catch it — no broadcast, no
error frame to the sender, no `manager.disconnect`, and the handler
terminates.  On successful persistence the row is appended with the next
timestamp and the message frame is broadcast; a send failure inside
`broadcast` likewise escapes the `try` uncaught. -/
def handleInbound (persistOk : Bool) (log : List MsgRow)
    (username data : String) (st : Registry) (r : RoomId)
    (broken : Sess → Bool) : StepResult :=
  if persistOk then
    let ts := log.length
    let frame : Frame := ⟨username, data, ts⟩
    let res := broadcastAttempts (membersOf st r) broken
    { log := log ++ [⟨username, data, ts⟩]
      sends := res.1.map (fun s => (s, frame))
      registry := st
      sessionAlive := !res.2
      deregistered := false
      notified := false }
  else
    { log := log
      sends := []
      registry := st
      sessionAlive := false
      deregistered := false
      notified := false }

/-- The parts of an HTTP request `AdminAuthBackend.__call__` reads: the
`access_token` cookie and the `Authorization` header. -/
structure HttpRequest where
  cookieAccessToken : Option String
  authorizationHeader : Option String
deriving DecidableEq, Repr

/-- Python `a or b` on optional strings: an absent or empty first operand is
falsy and yields the second. -/
def orFalsy (a b : Option String) : Option String :=
  match a with
  | some s => if s = "" then b else some s
  | none => b

/-- Python `s.startswith(p)`, on the character lists of the strings. -/
def pyStartsWith (s p : String) : Bool :=
  p.data.isPrefixOf s.data

/-- Python `s.split(" ")` on a character list: split at every single space,
keeping empty pieces. -/
def splitSpaces (cs : List Char) : List (List Char) :=
  match cs with
  | [] => [[]]
  | c :: rest =>
    let r := splitSpaces rest
    if c = ' ' then [] :: r
    else (c :: r.headD []) :: r.tail

/-- Python `s.split(" ")`. -/
def pySplitSpace (s : String) : List String :=
  (splitSpaces s.data).map (fun cs => ⟨cs⟩)

/-- `AdminAuthBackend.__call__` (auth.py 37-48): pick the `access_token`
cookie or else the `Authorization` header; require the "Bearer " scheme, strip
it with `token.split(" ")[1]`, decode, and require `role == "admin"`; any
failure raises `HTTPException(403)`. -/
def adminCheck (decode : String → Option Payload) (req : HttpRequest) :
    Except Nat Unit :=
  match orFalsy req.cookieAccessToken req.authorizationHeader with
  | none => Except.error 403
  | some t =>
    if pyStartsWith t "Bearer " then
      match decode (((pySplitSpace t).drop 1).headD "") with
      | none => Except.error 403
      | some p =>
        if p.role = some "admin" then Except.ok () else Except.error 403
    else Except.error 403

/-- An analytics endpoint body (main.py 62-81, 174-203) behind
`Depends(admin_authentication_backend)`: the dependency raising 403 prevents
the query from running; otherwise the query results are returned. -/
def analyticsEndpoint (decode : String → Option Payload) (req : HttpRequest)
    (queryResult : List (String × Nat)) : Except Nat (List (String × Nat)) :=
  match adminCheck decode req with
  | Except.error c => Except.error c
  | Except.ok _ => Except.ok queryResult

/-- A sample token decoder for concrete instances: one admin token, one
plain-user token, everything else invalid. -/
def decodeEx (t : String) : Option Payload :=
  if t = "admintok" then some ⟨some "root", some "admin"⟩
  else if t = "usertok" then some ⟨some "alice", some "user"⟩
  else none

end Chat

namespace Chat

theorem broadcastAttempts_eq (ms : List Sess) (broken : Sess → Bool) :
    broadcastAttempts ms broken =
      (ms.takeWhile (fun s => !broken s) ++
        (ms.dropWhile (fun s => !broken s)).take 1,
       ms.any broken) := by
  induction ms with
  | nil => rfl
  | cons s rest ih =>
    cases h : broken s with
    | true => simp [broadcastAttempts, h]
    | false => simp [broadcastAttempts, h, ih]

theorem broadcastAttempts_all_ok (ms : List Sess) (broken : Sess → Bool)
    (h : ∀ s ∈ ms, broken s = false) :
    broadcastAttempts ms broken = (ms, false) := by
  induction ms with
  | nil => rfl
  | cons s rest ih =>
    have hs : broken s = false := h s (List.mem_cons_self s rest)
    simp [broadcastAttempts, hs,
      ih (fun x hx => h x (List.mem_cons_of_mem s hx))]

/-- C1 (counterexample): in a room with members 0, 1, 2 where member 1's
transport is broken, `broadcast` attempts delivery only to 0 and 1 — member 2
never receives a delivery attempt — and the send exception escapes the loop to
the caller, contrary to the claim that every member present at the start of
the call gets one attempt and that a failure is not propagated. -/
theorem broadcast_failure_not_isolated_cex :
    membersOf [("general", [0, 1, 2])] "general" = [0, 1, 2] ∧
    broadcast [("general", [0, 1, 2])] "general" (fun s => s == 1)
      = ([0, 1], true) ∧
    2 ∉ (broadcast [("general", [0, 1, 2])] "general" (fun s => s == 1)).1 :=
  ⟨rfl, rfl, by decide⟩

/-- C1 (amended): `broadcast(r, m)` attempts delivery to the members of `r` in
registration order only up to and including the first member whose send
fails: a delivery failure aborts the attempts to all later members and the
exception propagates to the caller; when no member's send fails, every member
present at the start of the call receives exactly one delivery attempt and no
exception escapes. -/
theorem broadcast_stops_at_first_failure (st : Registry) (r : RoomId)
    (broken : Sess → Bool) :
    broadcast st r broken =
      ((membersOf st r).takeWhile (fun s => !broken s) ++
        ((membersOf st r).dropWhile (fun s => !broken s)).take 1,
       (membersOf st r).any broken) :=
  broadcastAttempts_eq (membersOf st r) broken

/-- C8: the sender of a message is included in the broadcast recipients like
any other member: for a room whose member list contains the sender's session,
with each session registered once and no failing transport, every member —
the sender included — receives the broadcast frame exactly once. -/
theorem sender_receives_own_message_once (st : Registry) (r : RoomId)
    (broken : Sess → Bool) (sender : Sess)
    (hmem : sender ∈ membersOf st r)
    (hnodup : (membersOf st r).Nodup)
    (hok : ∀ s ∈ membersOf st r, broken s = false) :
    (broadcast st r broken).1.count sender = 1 ∧
    ∀ m ∈ membersOf st r, (broadcast st r broken).1.count m = 1 := by
  have hb : broadcast st r broken = (membersOf st r, false) :=
    broadcastAttempts_all_ok (membersOf st r) broken hok
  rw [hb]
  exact ⟨List.count_eq_one_of_mem hnodup hmem,
    fun m hm => List.count_eq_one_of_mem hnodup hm⟩

/-- C8 (witness): concrete instance in room "general" with members 0 and 1,
sender 0, no broken transport. -/
theorem sender_receives_own_message_once_witness :
    (broadcast [("general", [0, 1])] "general" (fun _ => false)).1.count 0
        = 1 ∧
    ∀ m ∈ membersOf [("general", [0, 1])] "general",
      (broadcast [("general", [0, 1])] "general" (fun _ => false)).1.count m
        = 1 :=
  sender_receives_own_message_once [("general", [0, 1])] "general"
    (fun _ => false) 0 (by decide) (by decide) (by decide)

theorem noEmptyRooms_connect (st : Registry) (r : RoomId) (w : Sess)
    (h : noEmptyRooms st) : noEmptyRooms (connect st r w) := by
  unfold connect
  cases hl : lookupRoom st r with
  | none =>
    intro p hp
    rcases List.mem_append.1 hp with hp | hp
    · exact h p hp
    · simp only [List.mem_singleton] at hp
      subst hp
      simp
  | some ws =>
    intro p hp
    rcases List.mem_map.1 hp with ⟨q, hq, rfl⟩
    by_cases hqr : q.1 == r
    · simp [hqr]
    · simp only [hqr, if_false]
      exact h q hq

theorem noEmptyRooms_disconnect (st : Registry) (r : RoomId) (w : Sess)
    (st' : Registry) (h : noEmptyRooms st)
    (hok : disconnect st r w = Except.ok st') : noEmptyRooms st' := by
  unfold disconnect at hok
  cases hl : lookupRoom st r with
  | none =>
    simp only [hl] at hok
    exact Except.noConfusion hok
  | some ws =>
    simp only [hl] at hok
    by_cases hw : w ∈ ws
    · rw [if_pos hw] at hok
      by_cases he : (ws.erase w).isEmpty = true
      · rw [if_pos he] at hok
        injection hok with hok
        subst hok
        intro p hp
        exact h p (List.mem_filter.1 hp).1
      · rw [if_neg he] at hok
        injection hok with hok
        subst hok
        intro p hp
        rcases List.mem_map.1 hp with ⟨q, hq, rfl⟩
        by_cases hqr : (q.1 == r) = true
        · rw [if_pos hqr]
          intro hnil
          exact he (List.isEmpty_iff.2 hnil)
        · rw [if_neg hqr]
          exact h q hq
    · rw [if_neg hw] at hok
      exact Except.noConfusion hok

theorem noEmptyRooms_step (st : Registry) (o : Op) (h : noEmptyRooms st) :
    noEmptyRooms (step st o) := by
  cases o with
  | join r w => exact noEmptyRooms_connect st r w h
  | leave r w =>
    cases hd : disconnect st r w with
    | error e =>
      simp only [step, hd]
      exact h
    | ok st' =>
      simp only [step, hd]
      exact noEmptyRooms_disconnect st r w st' h hd

theorem lookupRoom_filter_out (st : Registry) (r : RoomId) :
    lookupRoom (st.filter (fun p => !(p.1 == r))) r = none := by
  unfold lookupRoom
  have hf : List.find? (fun p => p.1 == r)
      (st.filter (fun p => !(p.1 == r))) = none := by
    rw [List.find?_eq_none]
    intro p hp hpr
    have h2 := (List.mem_filter.1 hp).2
    rw [hpr] at h2
    cases h2
  rw [hf]
  rfl

theorem lookupRoom_append_fresh (st : Registry) (r : RoomId) (ws : List Sess)
    (h : lookupRoom st r = none) :
    lookupRoom (st ++ [(r, ws)]) r = some ws := by
  have hf : List.find? (fun p => p.1 == r) st = none := by
    unfold lookupRoom at h
    cases hf : List.find? (fun p => p.1 == r) st with
    | none => rfl
    | some q => rw [hf] at h; exact Option.noConfusion h
  unfold lookupRoom
  rw [List.find?_append, hf]
  simp [List.find?]

theorem connect_fresh (st : Registry) (r : RoomId) (w : Sess)
    (h : lookupRoom st r = none) : connect st r w = st ++ [(r, [w])] := by
  unfold connect
  simp only [h]

theorem disconnect_last_member (st : Registry) (r : RoomId) (w : Sess)
    (h : membersOf st r = [w]) :
    disconnect st r w = Except.ok (st.filter (fun p => !(p.1 == r))) := by
  have hl : lookupRoom st r = some [w] := by
    unfold membersOf at h
    cases hl : lookupRoom st r with
    | none =>
      simp only [hl, Option.getD_none] at h
      exact List.noConfusion h
    | some ws =>
      simp only [hl, Option.getD_some] at h
      rw [h]
  unfold disconnect
  simp only [hl]
  rw [if_pos (List.mem_singleton.2 rfl : w ∈ [w])]
  simp

/-- C2: over every sequence of `connect`/`disconnect` operations, the registry
never holds a room entry with an empty member list; and when `disconnect`
removes the last member of a room, the room's entry itself is removed — a
subsequent `membersOf` returns the empty list and the key is gone — while a
later `connect` for the same room id succeeds and creates a fresh entry whose
member list holds exactly the new session. -/
theorem registry_no_empty_room (ops : List Op) :
    noEmptyRooms (runOps ops) ∧
    ∀ r w, membersOf (runOps ops) r = [w] →
      ∃ st', disconnect (runOps ops) r w = Except.ok st' ∧
        membersOf st' r = [] ∧ lookupRoom st' r = none ∧
        ∀ w', membersOf (connect st' r w') r = [w'] := by
  constructor
  · have key : ∀ st, noEmptyRooms st → noEmptyRooms (ops.foldl step st) := by
      induction ops with
      | nil => intro st h; exact h
      | cons o rest ih => intro st h; exact ih (step st o) (noEmptyRooms_step st o h)
    exact key [] (fun p hp => absurd hp (List.not_mem_nil p))
  · intro r w h
    refine ⟨(runOps ops).filter (fun p => !(p.1 == r)),
      disconnect_last_member (runOps ops) r w h, ?_, ?_, ?_⟩
    · unfold membersOf
      rw [lookupRoom_filter_out]
      rfl
    · exact lookupRoom_filter_out (runOps ops) r
    · intro w'
      rw [connect_fresh _ r w' (lookupRoom_filter_out (runOps ops) r)]
      unfold membersOf
      rw [lookupRoom_append_fresh _ r [w'] (lookupRoom_filter_out (runOps ops) r)]
      rfl

/-- C2 (witness): concrete instance — after the single join of session 5 to
room "temp", session 5 is the sole member; its disconnect removes the entry
and a fresh join works. -/
theorem registry_no_empty_room_witness :
    noEmptyRooms (runOps [Op.join "temp" 5]) ∧
    ∃ st', disconnect (runOps [Op.join "temp" 5]) "temp" 5 = Except.ok st' ∧
      membersOf st' "temp" = [] ∧ lookupRoom st' "temp" = none ∧
      ∀ w', membersOf (connect st' "temp" w') "temp" = [w'] :=
  ⟨(registry_no_empty_room [Op.join "temp" 5]).1,
   (registry_no_empty_room [Op.join "temp" 5]).2 "temp" 5 rfl⟩

/-- C3 (counterexample): with session 1 the only member of room "general",
calling `disconnect` for session 2 raises ValueError, and calling
`disconnect` for a room with no entry raises KeyError — not the claimed
error-free no-op. -/
theorem disconnect_nonmember_raises_cex :
    disconnect [("general", [1])] "general" 2
      = Except.error PyErr.valueError ∧
    disconnect [] "temp" 1 = Except.error PyErr.keyError :=
  ⟨rfl, rfl⟩

/-- C3 (amended): calling `disconnect` for a session that is not currently a
member of the room raises an exception — KeyError when the room has no entry,
ValueError when the room exists but the session is not in its member list —
and the registry is left unchanged because the exception propagates before
any mutation; so the call is not a silent no-op, though it has no effect on
the registry. -/
theorem disconnect_nonmember_raises (st : Registry) (r : RoomId) (w : Sess)
    (h : w ∉ membersOf st r) :
    step st (Op.leave r w) = st ∧
    ((lookupRoom st r = none ∧
        disconnect st r w = Except.error PyErr.keyError) ∨
     ((∃ ws, lookupRoom st r = some ws) ∧
        disconnect st r w = Except.error PyErr.valueError)) := by
  have hmain :
      (lookupRoom st r = none ∧
        disconnect st r w = Except.error PyErr.keyError) ∨
      ((∃ ws, lookupRoom st r = some ws) ∧
        disconnect st r w = Except.error PyErr.valueError) := by
    cases hl : lookupRoom st r with
    | none =>
      refine Or.inl ⟨rfl, ?_⟩
      unfold disconnect
      simp only [hl]
    | some ws =>
      have hw : w ∉ ws := by
        intro hmem
        apply h
        unfold membersOf
        rw [hl]
        exact hmem
      refine Or.inr ⟨⟨ws, rfl⟩, ?_⟩
      unfold disconnect
      simp only [hl]
      rw [if_neg hw]
  refine ⟨?_, hmain⟩
  rcases hmain with ⟨_, he⟩ | ⟨_, he⟩ <;> simp only [step, he]

/-- C3 (witness): concrete instance of the amended claim at a registry where
room "general" holds only session 1 and session 2 leaves. -/
theorem disconnect_nonmember_raises_witness :
    step [("general", [1])] (Op.leave "general" 2) = [("general", [1])] ∧
    ((lookupRoom [("general", [1])] "general" = none ∧
        disconnect [("general", [1])] "general" 2
          = Except.error PyErr.keyError) ∨
     ((∃ ws, lookupRoom [("general", [1])] "general" = some ws) ∧
        disconnect [("general", [1])] "general" 2
          = Except.error PyErr.valueError)) :=
  disconnect_nonmember_raises [("general", [1])] "general" 2 (by decide)

/-- C4 (counterexample): an inbound message with empty content from "alice",
in a room with members 0 and 1, is persisted (a row with empty content is
appended to the log) and broadcast to both members — the receive loop has no
emptiness check, contrary to the claim that empty messages are silently
dropped. -/
theorem empty_message_not_dropped_cex :
    (handleInbound true [] "alice" "" [("general", [0, 1])] "general"
        (fun _ => false)).log = [⟨"alice", "", 0⟩] ∧
    (handleInbound true [] "alice" "" [("general", [0, 1])] "general"
        (fun _ => false)).sends
      = [(0, ⟨"alice", "", 0⟩), (1, ⟨"alice", "", 0⟩)] :=
  ⟨rfl, rfl⟩

/-- C4 (amended): the receive loop applies no emptiness check: an inbound
message with empty content is submitted to the Persistence Sink (a row with
empty content and the next timestamp is appended to the log) and handed to
the Broadcast Engine exactly like any other message — its delivery attempts
go to the same recipients as those of any non-empty message sent from the
same state. -/
theorem empty_message_persisted_and_broadcast (log : List MsgRow)
    (username data : String) (st : Registry) (r : RoomId)
    (broken : Sess → Bool) :
    (handleInbound true log username "" st r broken).log
        = log ++ [⟨username, "", log.length⟩] ∧
    (handleInbound true log username "" st r broken).sends.map Prod.fst
        = (handleInbound true log username data st r broken).sends.map
            Prod.fst := by
  constructor
  · rfl
  · simp [handleInbound]

/-- C5 (counterexample): when persistence fails for message "hi" from "alice"
in a room whose only member is session 0, the message is indeed not broadcast,
but no failure notification is sent to the sender and the receive loop
terminates — contrary to the claim that the session is notified and remains
active. -/
theorem persist_failure_cex :
    (handleInbound false [] "alice" "hi" [("general", [0])] "general"
        (fun _ => false)).sends = [] ∧
    (handleInbound false [] "alice" "hi" [("general", [0])] "general"
        (fun _ => false)).notified = false ∧
    (handleInbound false [] "alice" "hi" [("general", [0])] "general"
        (fun _ => false)).sessionAlive = false :=
  ⟨rfl, rfl, rfl⟩

/-- C5 (amended): when the Persistence Sink fails to store an inbound message,
the message is neither persisted nor broadcast to any member, but the sender
is NOT notified of the failure (no error frame is sent), the uncaught
exception terminates the session's receive loop, and that terminating path
performs no deregistration — the room registry is left untouched, still
holding the dead session. -/
theorem persist_failure_kills_session (log : List MsgRow)
    (username data : String) (st : Registry) (r : RoomId)
    (broken : Sess → Bool) :
    handleInbound false log username data st r broken
      = ⟨log, [], st, false, false, false⟩ :=
  rfl

theorem reverse_take_reverse (l : List MsgRow) (n : Nat) :
    ((l.reverse).take n).reverse = l.drop (l.length - n) := by
  rw [List.take_reverse, List.reverse_reverse]

/-- C6: joining a room sends exactly one frame — of kind history, to the
joining session only — containing the up-to-20 most recently persisted
messages of the room in oldest-first order: the history is the length-
min 20 (length log) suffix of the room's chronological log, kept in log
order, and each row carries user, content and the persisted timestamp. -/
theorem join_sends_one_history_snapshot (st : Registry) (r : RoomId)
    (w : Sess) (log : List MsgRow) :
    (joinSequence st r w log).2
        = [(w, Event.history (log.drop (log.length - 20)))] ∧
    (historyFor log).length = min 20 log.length ∧
    historyFor log <:+ log := by
  refine ⟨?_, ?_, ?_⟩
  · unfold joinSequence historyFor
    rw [reverse_take_reverse]
  · unfold historyFor
    rw [reverse_take_reverse, List.length_drop]
    omega
  · unfold historyFor
    rw [reverse_take_reverse]
    exact List.drop_suffix _ _

/-- C7: when authentication fails — the token does not decode, or the decoded
payload has no subject — the websocket endpoint refuses the connection before
any registry mutation: the registry is returned unchanged (the session is
added to no room's member set), no frame (history or broadcast) is sent, and
the connection is not accepted into the receive loop. -/
theorem auth_failure_no_side_effects (decode : String → Option Payload)
    (token : String) (st : Registry) (r : RoomId) (w : Sess)
    (log : List MsgRow)
    (h : decode token = none ∨ ∃ p, decode token = some p ∧ p.sub = none) :
    wsEndpointSetup decode token st r w log = (st, [], false) := by
  unfold wsEndpointSetup
  rcases h with h | ⟨p, hp, hsub⟩
  · rw [h]
  · rw [hp]
    simp only [hsub]

/-- C7 (witness): concrete instance with a token the decoder rejects. -/
theorem auth_failure_no_side_effects_witness :
    wsEndpointSetup decodeEx "badtok" [] "general" 0 [] = ([], [], false) :=
  auth_failure_no_side_effects decodeEx "badtok" [] "general" 0 []
    (Or.inl rfl)

/-- C10 (counterexample): a request carrying a valid admin bearer token in
its Authorization header is still rejected with 403 when a junk
`access_token` cookie is present, because the cookie shadows the header; so
carrying an admin bearer token in the cookie or the Authorization header does
not suffice for the request to succeed, contrary to the claim. -/
theorem admin_gate_header_shadowed_cex :
    decodeEx "admintok" = some ⟨some "root", some "admin"⟩ ∧
    analyticsEndpoint decodeEx ⟨some "junk", some "Bearer admintok"⟩
        [("general", 3)]
      = Except.error 403 :=
  ⟨rfl, rfl⟩

/-- C10 (amended): the admin gate examines a single token — the `access_token`
cookie when present and non-empty, otherwise the `Authorization` header; the
analytics request succeeds and returns the query results exactly when that
selected token starts with "Bearer " and the part after the first space
decodes to a payload whose role is "admin"; in every other case — including a
valid admin Authorization header shadowed by a non-admin cookie — the request
is rejected with HTTP 403 and no results are returned. -/
theorem admin_gate_characterization (decode : String → Option Payload)
    (req : HttpRequest) (qr : List (String × Nat)) :
    (analyticsEndpoint decode req qr = Except.ok qr ↔
      ∃ t, orFalsy req.cookieAccessToken req.authorizationHeader = some t ∧
        pyStartsWith t "Bearer " = true ∧
        ∃ p, decode (((pySplitSpace t).drop 1).headD "") = some p ∧
          p.role = some "admin") ∧
    (analyticsEndpoint decode req qr = Except.ok qr ∨
     analyticsEndpoint decode req qr = Except.error 403) := by
  unfold analyticsEndpoint adminCheck
  cases ht : orFalsy req.cookieAccessToken req.authorizationHeader with
  | none =>
    constructor
    · constructor
      · intro hcontra
        exact Except.noConfusion hcontra
      · rintro ⟨t, htt, _⟩
        exact Option.noConfusion htt
    · exact Or.inr rfl
  | some t =>
    dsimp only
    by_cases hb : pyStartsWith t "Bearer " = true
    · rw [if_pos hb]
      cases hd : decode (((pySplitSpace t).drop 1).headD "") with
      | none =>
        constructor
        · constructor
          · intro hcontra
            exact Except.noConfusion hcontra
          · rintro ⟨t', htt, _, p, hp, _⟩
            injection htt with htt
            subst htt
            rw [hd] at hp
            exact Option.noConfusion hp
        · exact Or.inr rfl
      | some p =>
        dsimp only
        by_cases hrole : p.role = some "admin"
        · rw [if_pos hrole]
          constructor
          · constructor
            · intro _
              exact ⟨t, rfl, hb, p, hd, hrole⟩
            · intro _
              rfl
          · exact Or.inl rfl
        · rw [if_neg hrole]
          constructor
          · constructor
            · intro hcontra
              exact Except.noConfusion hcontra
            · rintro ⟨t', htt, _, p', hp', hrole'⟩
              injection htt with htt
              subst htt
              rw [hd] at hp'
              injection hp' with hp'
              subst hp'
              exact absurd hrole' hrole
          · exact Or.inr rfl
    · rw [if_neg hb]
      constructor
      · constructor
        · intro hcontra
          exact Except.noConfusion hcontra
        · rintro ⟨t', htt, hb', _⟩
          injection htt with htt
          subst htt
          exact absurd hb' hb
      · exact Or.inr rfl

end Chat

section Examples

example : Chat.broadcast [("general", [0, 1, 2])] "general" (fun s => s == 1)
    = ([0, 1], true) := by decide

example : Chat.runOps [Chat.Op.join "temp" 5] = [("temp", [5])] := by decide

example : Chat.disconnect [] "temp" 1 = Except.error Chat.PyErr.keyError := rfl

example : Chat.adminCheck Chat.decodeEx ⟨some "junk", some "Bearer admintok"⟩
    = Except.error 403 := rfl

example : Chat.adminCheck Chat.decodeEx ⟨none, some "Bearer admintok"⟩
    = Except.ok () := rfl

end Examples
